import Mathlib

/-!
Verification of the schema-inference-driven storage router of the
`deploy-test` repository.  The definitions below are a shallow embedding of
`src/backend/services/databaseManager.js` (schema analysis and storage
dispatch) and `src/backend/services/jsonProcessor.js` (ingestion
orchestrator).  JSON values are modelled as a closed sum type; JavaScript
runtime type probes (`typeof`, `Array.isArray`, `Object.keys`,
`Object.entries`) become pattern matches on that type.
-/

set_option maxHeartbeats 1000000

namespace DeployTest

/-- A parsed JSON value.  `Date` objects cannot occur in a value obtained by
parsing JSON text, so the `value instanceof Date` branch of the source's
`getType` is unreachable and has no constructor here.  Object keys are unique
per item (JavaScript objects cannot hold duplicate keys). -/
inductive JSON where
  | null : JSON
  | bool (b : Bool) : JSON
  | num (n : Int) : JSON
  | str (s : String) : JSON
  | arr (elems : List JSON) : JSON
  | obj (fields : List (String × JSON)) : JSON

/-- `v === null` in the source. -/
def JSON.isNull : JSON → Bool
  | .null => true
  | _ => false

/-- The JavaScript test `typeof v === 'object' && v !== null`: true exactly
for arrays and (non-null) objects. -/
def isObjLike : JSON → Bool
  | .arr _ => true
  | .obj _ => true
  | _ => false

mutual
/-- `calculateDepth(obj, current)` from databaseManager.js: a non-object
value keeps the current depth; for an array or object the depth is the max of
the current depth and `calculateDepth(child, current+1)` over all child
values that are themselves arrays or objects. -/
def calculateDepth : JSON → Nat → Nat
  | .arr xs, c => depthList xs c
  | .obj kvs, c => depthPairs kvs c
  | _, c => c

/-- The `for (const value of Object.values(obj))` loop of `calculateDepth`,
over an array's elements. -/
def depthList : List JSON → Nat → Nat
  | [], c => c
  | v :: vs, c =>
      max (if isObjLike v then calculateDepth v (c + 1) else c) (depthList vs c)

/-- The `for (const value of Object.values(obj))` loop of `calculateDepth`,
over an object's property values. -/
def depthPairs : List (String × JSON) → Nat → Nat
  | [], c => c
  | (_, v) :: vs, c =>
      max (if isObjLike v then calculateDepth v (c + 1) else c) (depthPairs vs c)
end

mutual
/-- `hasNestedArrays(obj)` from databaseManager.js: false on non-objects;
otherwise true iff some property value at any nesting level is an array. -/
def hasNestedArrays : JSON → Bool
  | .arr xs => naList xs
  | .obj kvs => naPairs kvs
  | _ => false

/-- One property value of `hasNestedArrays`: an array value yields true, an
object value is recursed into, anything else contributes false. -/
def naVal : JSON → Bool
  | .arr _ => true
  | .obj kvs => naPairs kvs
  | _ => false

/-- The value loop of `hasNestedArrays` over an array's elements. -/
def naList : List JSON → Bool
  | [] => false
  | v :: vs => naVal v || naList vs

/-- The value loop of `hasNestedArrays` over an object's property values. -/
def naPairs : List (String × JSON) → Bool
  | [] => false
  | (_, v) :: vs => naVal v || naPairs vs
end

/-- `Object.entries(v)` on the JSON values for which it is defined: an
object's key/value pairs, an array's index/element pairs, a string's
index/character pairs, and the empty list for booleans and numbers (primitive
wrappers have no own enumerable properties).  `Object.entries(null)` throws
in JavaScript; theorems that depend on this function therefore restrict
their scope to null-free inputs. -/
def jsEntries : JSON → List (String × JSON)
  | .obj kvs => kvs
  | .arr xs => xs.enum.map fun p => (toString p.1, p.2)
  | .str s => s.data.enum.map fun p => (toString p.1, JSON.str (String.mk [p.2]))
  | _ => []

/-- `Object.keys(v)`, with the same scope note as `jsEntries`. -/
def jsKeys (v : JSON) : List String :=
  (jsEntries v).map Prod.fst

/-- Lexicographic comparison of character lists. -/
def charListLt : List Char → List Char → Bool
  | [], [] => false
  | [], _ :: _ => true
  | _ :: _, [] => false
  | a :: as, b :: bs => if a < b then true else if b < a then false else charListLt as bs

/-- Lexicographic string comparison on the underlying characters.
JavaScript's default sort comparator orders strings by UTF-16 code units;
any total order yields the same sorted-list-equality predicate, which is all
`checkSchemaConsistency` uses the sort for. -/
def strLt (a b : String) : Bool :=
  charListLt a.data b.data

/-- `key.endsWith(pattern)`: the pattern is a suffix of the key. -/
def strEndsWith (s pat : String) : Bool :=
  s.data.drop (s.data.length - pat.data.length) == pat.data

/-- Insert a string into an already sorted list of strings. -/
def insertSorted (s : String) : List String → List String
  | [] => [s]
  | x :: xs => if strLt x s then x :: insertSorted s xs else s :: x :: xs

/-- `keys.sort()`: insertion sort under the total order on strings.  Two
sorted lists are equal exactly when the key multisets agree, which is the
predicate the source's `JSON.stringify` comparison of sorted key arrays
decides. -/
def sortStrings (l : List String) : List String :=
  l.foldr insertSorted []

/-- `checkSchemaConsistency(items)` from databaseManager.js: datasets with at
most one item are consistent; otherwise the sorted key list of each of items
`1 .. min(length, 10) - 1` is compared against the sorted key list of
`items[0]`. -/
def checkSchemaConsistency (items : List JSON) : Bool :=
  match items with
  | [] => true
  | [_] => true
  | first :: rest =>
      let firstKeys := sortStrings (jsKeys first)
      (rest.take 9).all fun item => sortStrings (jsKeys item) == firstKeys

/-- One entry of the inferred schema: `{ type, nullable }`. -/
structure FieldInfo where
  type : String
  nullable : Bool
deriving DecidableEq, Repr

/-- `getType(value)` from databaseManager.js.  The `value instanceof Date`
branch is unreachable for parsed JSON and is omitted. -/
def getType : JSON → String
  | .null => "null"
  | .arr _ => "array"
  | .bool _ => "boolean"
  | .num _ => "number"
  | .str _ => "string"
  | .obj _ => "object"

/-- `inferSchema(obj)` from databaseManager.js: each entry is mapped to its
inferred type together with `nullable: value === null`. -/
def inferSchema (item : JSON) : List (String × FieldInfo) :=
  (jsEntries item).map fun p => (p.1, { type := getType p.2, nullable := p.2.isNull })

/-- The foreign-key name suffixes probed by `detectRelations`. -/
def fkPatterns : List String :=
  ["_id", "Id", "_ref", "Ref"]

/-- `detectRelations(schema)` from databaseManager.js: true iff some field
name ends in one of the foreign-key suffixes and that field's inferred type
is `number`. -/
def detectRelations (schema : List (String × FieldInfo)) : Bool :=
  schema.any fun p => fkPatterns.any fun pat => strEndsWith p.1 pat && p.2.type == "number"

/-- The root-unwrapping step shared by `analyzeJSONSchema`,
`storeInPostgreSQL` and `storeInMongoDB`: a non-array object with exactly one
key whose value is an array is replaced by that array; everything else is
kept as-is. -/
def jsUnwrap : JSON → JSON
  | .obj [(_, .arr xs)] => .arr xs
  | v => v

/-- `Array.isArray(actualData) ? actualData : [actualData]`. -/
def toItems : JSON → List JSON
  | .arr xs => xs
  | v => [v]

/-- The item sequence `analyzeJSONSchema` analyzes: unwrap, then coerce to an
array. -/
def normItems (data : JSON) : List JSON :=
  toItems (jsUnwrap data)

/-- The result record of `analyzeJSONSchema`. -/
structure AnalysisResult where
  useSQL : Bool
  reason : String
  schema : List (String × FieldInfo)

/-- `analyzeJSONSchema(data)` from databaseManager.js: the guard for invalid
payloads, the root unwrap, the empty-dataset default, and the routing
decision chain over depth, nested arrays, consistency and relation hints. -/
def analyzeJSONSchema (data : JSON) : AnalysisResult :=
  if !(isObjLike data) then
    { useSQL := false, reason := "Invalid data structure", schema := [] }
  else
    match normItems data with
    | [] => { useSQL := true, reason := "Empty dataset - defaulting to SQL", schema := [] }
    | firstItem :: rest =>
        let depth := calculateDepth firstItem 1
        let hasArrays := hasNestedArrays firstItem
        let isConsistent := checkSchemaConsistency (firstItem :: rest)
        let schema := inferSchema firstItem
        if depth > 3 then
          { useSQL := false
            reason := "Deep nesting detected (depth: " ++ toString depth ++
              ") - MongoDB better suited for hierarchical data"
            schema := schema }
        else if hasArrays = true then
          { useSQL := false
            reason := "Nested arrays detected - MongoDB handles dynamic arrays better"
            schema := schema }
        else if isConsistent = false then
          { useSQL := false
            reason := "Inconsistent schema across items - MongoDB provides flexibility"
            schema := schema }
        else if depth ≤ 2 ∧ isConsistent = true then
          if detectRelations schema then
            { useSQL := true
              reason := "Relational pattern detected (foreign keys) - PostgreSQL better for joins and relationships"
              schema := schema }
          else
            { useSQL := true
              reason := "Flat structure (depth: " ++ toString depth ++
                ") with consistent schema - PostgreSQL optimal for relational queries"
              schema := schema }
        else
          { useSQL := false
            reason := "Complex structure - MongoDB provides better flexibility"
            schema := schema }

/-- Does `pat` occur at the head of the character list? -/
def startsWithChars : List Char → List Char → Bool
  | [], _ => true
  | _ :: _, [] => false
  | p :: ps, c :: cs => p == c && startsWithChars ps cs

/-- `s.replace(pat, '')` with a string (non-regex) pattern, as in
`filename.replace('.json', '')`: JavaScript removes only the first
occurrence of the pattern. -/
def removeFirstOcc (pat : List Char) : List Char → List Char
  | [] => []
  | c :: cs =>
      if startsWithChars pat (c :: cs) then (c :: cs).drop pat.length
      else c :: removeFirstOcc pat cs

/-- One character of `.replace(/[^a-zA-Z0-9_]/g, '_')`. -/
def jsSanitizeChar (c : Char) : Char :=
  if (('a' ≤ c ∧ c ≤ 'z') ∨ ('A' ≤ c ∧ c ≤ 'Z') ∨ ('0' ≤ c ∧ c ≤ '9') ∨ c = '_')
  then c else '_'

/-- The table/collection name computed by `analyzeAndStoreJSON`:
`filename.replace('.json', '').replace(/[^a-zA-Z0-9_]/g, '_')`. -/
def deriveTableName (filename : String) : String :=
  String.mk ((removeFirstOcc ".json".data filename.data).map jsSanitizeChar)

/-- The target name as the specification words it: the filename with a
trailing `.json` suffix stripped and every character outside `[A-Za-z0-9_]`
replaced by `_`.  Stated for comparison against `deriveTableName`. -/
def specTargetName (filename : String) : String :=
  let base := if strEndsWith filename ".json" then
      String.mk (filename.data.take (filename.data.length - 5))
    else filename
  String.mk (base.data.map jsSanitizeChar)

/-- Index of the first occurrence of `pat` in a character list, if any. -/
def firstIdx (pat : List Char) : List Char → Option Nat
  | [] => if pat.isEmpty then some 0 else none
  | c :: cs =>
      if startsWithChars pat (c :: cs) then some 0
      else (firstIdx pat cs).map (· + 1)

/-- Whether the configured backend connections exist and whether their
insert/create operations would fail; this stands in for the module-level
`pgPool`/`mongoDb` singletons and the behaviour of the external engines. -/
structure PipelineEnv where
  pgConfigured : Bool
  mongoConfigured : Bool
  pgError : Option String
  mongoError : Option String

/-- `storeInPostgreSQL(data, tableName)` from databaseManager.js, as far as
its control flow is decided by this repository: a missing pool throws
`PostgreSQL not configured` before anything else; `Object.keys(null)` inside
the unwrap block throws a TypeError; an empty item list returns 0 without
touching the backend; otherwise the backend interaction either fails with
the backend's error or inserts every item (one row per item, so the count
equals the item count). -/
def storeInPostgreSQL (configured : Bool) (dbError : Option String) (data : JSON) :
    Except String Nat :=
  if configured = false then Except.error "PostgreSQL not configured"
  else if data.isNull then Except.error "TypeError: Cannot convert undefined or null to object"
  else
    let items := normItems data
    if items.length = 0 then Except.ok 0
    else
      match dbError with
      | some msg => Except.error msg
      | none => Except.ok items.length

/-- `storeInMongoDB(data, collectionName)` from databaseManager.js, modelled
the same way as `storeInPostgreSQL`: missing client throws `MongoDB not
configured`; `insertMany` either fails or acknowledges every item. -/
def storeInMongoDB (configured : Bool) (dbError : Option String) (data : JSON) :
    Except String Nat :=
  if configured = false then Except.error "MongoDB not configured"
  else if data.isNull then Except.error "TypeError: Cannot convert undefined or null to object"
  else
    let items := normItems data
    if items.length = 0 then Except.ok 0
    else
      match dbError with
      | some msg => Except.error msg
      | none => Except.ok items.length

/-- The storage call `analyzeAndStoreJSON` issues: PostgreSQL when the
routing decision said SQL, MongoDB otherwise. -/
def chosenStore (env : PipelineEnv) (data : JSON) : Except String Nat :=
  if (analyzeJSONSchema data).useSQL then
    storeInPostgreSQL env.pgConfigured env.pgError data
  else
    storeInMongoDB env.mongoConfigured env.mongoError data

/-- `Array.isArray(jsonData) ? jsonData.length : 1`, the fallback record
count used when the storage call throws. -/
def jsTopLen : JSON → Nat
  | .arr xs => xs.length
  | _ => 1

/-- The caller-visible result of `analyzeAndStoreJSON`.  The metadata record
emitted to the event log carries this same `recordCount`, `database`,
`tableName` and `reason`. -/
structure IngestResult where
  success : Bool
  status : String
  database : String
  tableName : String
  recordCount : Nat
  reason : String

/-- True when the JavaScript execution of `analyzeJSONSchema` on this
payload cannot throw: either the invalid-payload guard fires, or no item in
the consistency sample (and hence no first item) is `null`, so every
`Object.keys`/`Object.entries` call is defined. -/
def analysisSafe (data : JSON) : Bool :=
  !(isObjLike data) || ((normItems data).take 10).all fun v => !v.isNull

/-- `analyzeAndStoreJSON(jsonData, filename)` from jsonProcessor.js on the
path where schema analysis does not throw and the event-log emission
succeeds.  The inner `try/catch` around the storage call means a storage
failure is caught: the record count falls back to the raw payload's
top-level length and the function still returns a success record with
status `processed`. -/
def analyzeAndStoreJSON (env : PipelineEnv) (jsonData : JSON) (filename : String) :
    IngestResult :=
  let a := analyzeJSONSchema jsonData
  let dbType := if a.useSQL then "PostgreSQL" else "MongoDB"
  let tableName := deriveTableName filename
  let recordCount :=
    match chosenStore env jsonData with
    | .ok n => n
    | .error _ => jsTopLen jsonData
  { success := true
    status := "processed"
    database := dbType
    tableName := tableName
    recordCount := recordCount
    reason := a.reason }

/-- An environment with neither backend configured. -/
def envNoBackend : PipelineEnv :=
  { pgConfigured := false, mongoConfigured := false, pgError := none, mongoError := none }

/-! ## Theorems -/

/-- C3 counterexample: on a `null` payload (and likewise on a numeric
scalar) `analyzeJSONSchema` takes the invalid-data branch and returns
`useSQL = false`, i.e. the document store — not the relational default the
claim asserts. -/
theorem c3_null_routes_document_counterexample :
    (analyzeJSONSchema JSON.null).useSQL = false ∧
    (analyzeJSONSchema (JSON.num 5)).useSQL = false ∧
    (analyzeJSONSchema JSON.null).reason = "Invalid data structure" := by
  decide

/-- C3 (amended): for every raw payload that is `null` or a non-object
scalar, `analyzeJSONSchema` returns the invalid-data outcome: the document
side (`useSQL = false`) with reason `Invalid data structure` and an empty
schema; the relational empty-dataset default is not reached. -/
theorem c3_invalid_payload_routes_document (data : JSON)
    (h : isObjLike data = false) :
    (analyzeJSONSchema data).useSQL = false ∧
    (analyzeJSONSchema data).reason = "Invalid data structure" ∧
    (analyzeJSONSchema data).schema = [] := by
  simp [analyzeJSONSchema, h]

/-- C3 witness: the amended statement evaluated at the scalar `true`. -/
theorem c3_invalid_payload_routes_document_witness :
    (analyzeJSONSchema (JSON.bool true)).useSQL = false ∧
    (analyzeJSONSchema (JSON.bool true)).reason = "Invalid data structure" ∧
    (analyzeJSONSchema (JSON.bool true)).schema = [] :=
  c3_invalid_payload_routes_document (JSON.bool true) (by decide)

/-- C7: a non-array object payload is unwrapped into its inner array's items
exactly when it has a single key whose value is an array; any other object
normalizes to the one-element sequence holding the object itself. -/
theorem c7_single_key_array_unwrap (kvs : List (String × JSON)) :
    (∀ k xs, kvs = [(k, JSON.arr xs)] → normItems (JSON.obj kvs) = xs) ∧
    ((∀ k xs, kvs ≠ [(k, JSON.arr xs)]) → normItems (JSON.obj kvs) = [JSON.obj kvs]) := by
  constructor
  · rintro k xs rfl
    rfl
  · intro h
    rcases kvs with _ | ⟨⟨k, v⟩, rest⟩
    · rfl
    rcases rest with _ | ⟨p, rest2⟩
    · cases v with
      | arr xs => exact absurd rfl (h k xs)
      | null => rfl
      | bool b => rfl
      | num n => rfl
      | str s => rfl
      | obj fields => rfl
    · cases v <;> rfl

/-- C7 witness: a one-key object wrapping a two-element array unwraps to
those two items. -/
theorem c7_single_key_array_unwrap_witness :
    normItems (JSON.obj [("orders", JSON.arr [JSON.num 1, JSON.num 2])]) =
      [JSON.num 1, JSON.num 2] :=
  (c7_single_key_array_unwrap _).1 "orders" [JSON.num 1, JSON.num 2] rfl

/-- C9: every field of an inferred schema comes from an entry of the item,
its `nullable` flag is set exactly when that entry's value is `null`, and
that is exactly when its inferred type is the string `null`. -/
theorem c9_nullable_iff_type_null (v : JSON) (k : String) (fi : FieldInfo)
    (h : (k, fi) ∈ inferSchema v) :
    ∃ val, (k, val) ∈ jsEntries v ∧ (fi.nullable = true ↔ val = JSON.null) ∧
      (fi.nullable = true ↔ fi.type = "null") := by
  unfold inferSchema at h
  rcases List.mem_map.mp h with ⟨⟨k2, val⟩, hp, he⟩
  simp only [Prod.mk.injEq] at he
  obtain ⟨rfl, rfl⟩ := he
  refine ⟨val, hp, ?_, ?_⟩ <;> cases val <;> simp [JSON.isNull, getType]

/-- C9 witness: the schema of the object with single field `a` holding
`null`, at that field. -/
theorem c9_nullable_iff_type_null_witness :
    ∃ val, ("a", val) ∈ jsEntries (JSON.obj [("a", JSON.null)]) ∧
      ((⟨"null", true⟩ : FieldInfo).nullable = true ↔ val = JSON.null) ∧
      ((⟨"null", true⟩ : FieldInfo).nullable = true ↔
        (⟨"null", true⟩ : FieldInfo).type = "null") :=
  c9_nullable_iff_type_null (JSON.obj [("a", JSON.null)]) "a" ⟨"null", true⟩ (by decide)

/-- `removeFirstOcc` removes exactly the slice at the first occurrence of the
pattern, and leaves the list unchanged when the pattern does not occur. -/
theorem removeFirstOcc_eq_firstIdx (pat : List Char) (hp : pat ≠ []) (s : List Char) :
    removeFirstOcc pat s =
      match firstIdx pat s with
      | none => s
      | some i => s.take i ++ s.drop (i + pat.length) := by
  induction s with
  | nil =>
      have hne : pat.isEmpty = false := by
        cases pat with
        | nil => exact absurd rfl hp
        | cons a as => rfl
      simp [removeFirstOcc, firstIdx, hne]
  | cons c cs ih =>
      by_cases hsw : startsWithChars pat (c :: cs) = true
      · simp [removeFirstOcc, firstIdx, hsw]
      · rw [removeFirstOcc, if_neg hsw, firstIdx, if_neg hsw]
        cases hfi : firstIdx pat cs with
        | none =>
            rw [hfi] at ih
            simp [ih]
        | some i =>
            rw [hfi] at ih
            simp only [ih, Option.map_some]
            have h1 : (c :: cs).take (i + 1) = c :: cs.take i := rfl
            have h2 : (c :: cs).drop (i + 1 + pat.length) = cs.drop (i + pat.length) := by
              have h3 : i + 1 + pat.length = (i + pat.length) + 1 := by omega
              rw [h3]
              rfl
            simp [h1, h2]

/-- C6 counterexample: for the filename `a.jsonb` the code removes the first
occurrence of `.json` even though it is not a trailing suffix, producing
`ab`, while the claimed formula (strip only a trailing `.json`, then
sanitize) produces `a_jsonb`. -/
theorem c6_target_name_counterexample :
    deriveTableName "a.jsonb" = "ab" ∧ specTargetName "a.jsonb" = "a_jsonb" ∧
    deriveTableName "a.jsonb" ≠ specTargetName "a.jsonb" := by
  decide

/-- C6 (amended): the derived target name equals the filename with the slice
at the *first* occurrence of `.json` removed — wherever that occurrence is,
trailing or not, and with the filename left unchanged when `.json` does not
occur — followed by replacing every character outside `[A-Za-z0-9_]` with
`_`. -/
theorem c6_target_name_first_occurrence (filename : String) :
    deriveTableName filename =
      String.mk ((match firstIdx ".json".data filename.data with
        | none => filename.data
        | some i => filename.data.take i ++ filename.data.drop (i + 5)).map jsSanitizeChar) := by
  unfold deriveTableName
  rw [removeFirstOcc_eq_firstIdx ".json".data (by decide) filename.data]
  cases hfi : firstIdx ".json".data filename.data with
  | none => simp [hfi]
  | some i =>
      have h5 : ".json".data.length = 5 := by decide
      simp [hfi, h5]

/-- C2: whenever the (non-empty) normalized item sequence starts with an
item of nesting depth strictly greater than 3, the routing decision is the
document store and the justification cites that depth — no hypothesis about
consistency, nested arrays or relation hints is needed, because the depth
rule is evaluated first. -/
theorem c2_depth_rule_dominates (data first : JSON) (rest : List JSON)
    (hobj : isObjLike data = true)
    (hitems : normItems data = first :: rest)
    (hsafe : analysisSafe data = true)
    (hdepth : calculateDepth first 1 > 3) :
    (analyzeJSONSchema data).useSQL = false ∧
    (analyzeJSONSchema data).reason =
      "Deep nesting detected (depth: " ++ toString (calculateDepth first 1) ++
        ") - MongoDB better suited for hierarchical data" := by
  simp [analyzeJSONSchema, hobj, hitems, hdepth]

/-- C2 witness: the depth-4 payload of the specification's example routes to
the document store with the depth cited. -/
theorem c2_depth_rule_dominates_witness :
    (analyzeJSONSchema (JSON.obj [("a", JSON.obj [("b", JSON.obj [("c",
        JSON.obj [("d", JSON.num 1)])])])])).useSQL = false ∧
    (analyzeJSONSchema (JSON.obj [("a", JSON.obj [("b", JSON.obj [("c",
        JSON.obj [("d", JSON.num 1)])])])])).reason =
      "Deep nesting detected (depth: 4) - MongoDB better suited for hierarchical data" := by
  have h := c2_depth_rule_dominates
    (JSON.obj [("a", JSON.obj [("b", JSON.obj [("c", JSON.obj [("d", JSON.num 1)])])])])
    (JSON.obj [("a", JSON.obj [("b", JSON.obj [("c", JSON.obj [("d", JSON.num 1)])])])])
    [] rfl rfl (by decide) (by decide)
  refine ⟨h.1, ?_⟩
  rw [h.2]
  decide

/-- The `detectRelations` probe holds exactly when some schema field's name
ends in `_id`, `Id`, `_ref` or `Ref` and that field's inferred type is
`number`. -/
theorem detectRelations_iff (schema : List (String × FieldInfo)) :
    detectRelations schema = true ↔
      ∃ p ∈ schema,
        (strEndsWith p.1 "_id" = true ∨ strEndsWith p.1 "Id" = true ∨
          strEndsWith p.1 "_ref" = true ∨ strEndsWith p.1 "Ref" = true) ∧
        p.2.type = "number" := by
  simp only [detectRelations, fkPatterns, List.any_eq_true, Bool.and_eq_true, beq_iff_eq]
  constructor
  · rintro ⟨p, hp, pat, hmem, he, ht⟩
    refine ⟨p, hp, ?_, ht⟩
    simp only [List.mem_cons, List.not_mem_nil, or_false] at hmem
    rcases hmem with rfl | rfl | rfl | rfl
    · exact Or.inl he
    · exact Or.inr (Or.inl he)
    · exact Or.inr (Or.inr (Or.inl he))
    · exact Or.inr (Or.inr (Or.inr he))
  · rintro ⟨p, hp, hor, ht⟩
    rcases hor with h1 | h1 | h1 | h1
    · exact ⟨p, hp, "_id", by simp, h1, ht⟩
    · exact ⟨p, hp, "Id", by simp, h1, ht⟩
    · exact ⟨p, hp, "_ref", by simp, h1, ht⟩
    · exact ⟨p, hp, "Ref", by simp, h1, ht⟩

/-- The flat-structure justification never coincides with the foreign-key
justification, whatever depth value is interpolated. -/
theorem flatReason_ne_fkReason (d : Nat) :
    "Flat structure (depth: " ++ toString d ++
      ") with consistent schema - PostgreSQL optimal for relational queries" ≠
    "Relational pattern detected (foreign keys) - PostgreSQL better for joins and relationships" := by
  intro h
  have h2 := congrArg (fun s => s.data.head?) h
  simp only [String.data_append] at h2
  simp at h2

/-- C4: a non-empty dataset whose first item has depth at most 2, no nested
arrays, and consistent sampled items routes to the relational store; the
justification is the foreign-key one exactly when some field of the first
item ends in `_id`, `Id`, `_ref` or `Ref` with inferred type `number`, and
otherwise it is the flat-structure one. -/
theorem c4_flat_consistent_routes_relational (data first : JSON) (rest : List JSON)
    (hobj : isObjLike data = true)
    (hitems : normItems data = first :: rest)
    (hsafe : analysisSafe data = true)
    (hdepth : calculateDepth first 1 ≤ 2)
    (harr : hasNestedArrays first = false)
    (hcons : checkSchemaConsistency (first :: rest) = true) :
    (analyzeJSONSchema data).useSQL = true ∧
    ((analyzeJSONSchema data).reason =
        "Relational pattern detected (foreign keys) - PostgreSQL better for joins and relationships" ↔
      ∃ p ∈ inferSchema first,
        (strEndsWith p.1 "_id" = true ∨ strEndsWith p.1 "Id" = true ∨
          strEndsWith p.1 "_ref" = true ∨ strEndsWith p.1 "Ref" = true) ∧
        p.2.type = "number") ∧
    ((¬ ∃ p ∈ inferSchema first,
        (strEndsWith p.1 "_id" = true ∨ strEndsWith p.1 "Id" = true ∨
          strEndsWith p.1 "_ref" = true ∨ strEndsWith p.1 "Ref" = true) ∧
        p.2.type = "number") →
      (analyzeJSONSchema data).reason =
        "Flat structure (depth: " ++ toString (calculateDepth first 1) ++
          ") with consistent schema - PostgreSQL optimal for relational queries") := by
  have hd3 : ¬ calculateDepth first 1 > 3 := by omega
  cases hrel : detectRelations (inferSchema first) with
  | true =>
      have hex := (detectRelations_iff (inferSchema first)).mp hrel
      have hr : (analyzeJSONSchema data).reason =
          "Relational pattern detected (foreign keys) - PostgreSQL better for joins and relationships" := by
        simp [analyzeJSONSchema, hobj, hitems, hd3, harr, hcons, hdepth, hrel]
      refine ⟨?_, iff_of_true hr hex, fun hnex => absurd hex hnex⟩
      simp [analyzeJSONSchema, hobj, hitems, hd3, harr, hcons, hdepth, hrel]
  | false =>
      have hnex : ¬ ∃ p ∈ inferSchema first,
          (strEndsWith p.1 "_id" = true ∨ strEndsWith p.1 "Id" = true ∨
            strEndsWith p.1 "_ref" = true ∨ strEndsWith p.1 "Ref" = true) ∧
          p.2.type = "number" := by
        intro hex
        rw [(detectRelations_iff (inferSchema first)).mpr hex] at hrel
        exact Bool.true_eq_false.mp hrel
      have hr : (analyzeJSONSchema data).reason =
          "Flat structure (depth: " ++ toString (calculateDepth first 1) ++
            ") with consistent schema - PostgreSQL optimal for relational queries" := by
        simp [analyzeJSONSchema, hobj, hitems, hd3, harr, hcons, hdepth, hrel]
      refine ⟨?_, iff_of_false (by rw [hr]; exact flatReason_ne_fkReason _) hnex, fun _ => hr⟩
      simp [analyzeJSONSchema, hobj, hitems, hd3, harr, hcons, hdepth, hrel]

/-- C4 witness: the specification's `users.json` example — two flat,
consistent items with numeric `user_id` — routes relational with the
foreign-key justification. -/
theorem c4_flat_consistent_routes_relational_witness :
    (analyzeJSONSchema (JSON.arr
        [JSON.obj [("user_id", JSON.num 1), ("name", JSON.str "a")],
         JSON.obj [("user_id", JSON.num 2), ("name", JSON.str "b")]])).useSQL = true ∧
    (analyzeJSONSchema (JSON.arr
        [JSON.obj [("user_id", JSON.num 1), ("name", JSON.str "a")],
         JSON.obj [("user_id", JSON.num 2), ("name", JSON.str "b")]])).reason =
      "Relational pattern detected (foreign keys) - PostgreSQL better for joins and relationships" := by
  have h := c4_flat_consistent_routes_relational
    (JSON.arr [JSON.obj [("user_id", JSON.num 1), ("name", JSON.str "a")],
      JSON.obj [("user_id", JSON.num 2), ("name", JSON.str "b")]])
    (JSON.obj [("user_id", JSON.num 1), ("name", JSON.str "a")])
    [JSON.obj [("user_id", JSON.num 2), ("name", JSON.str "b")]]
    rfl rfl (by decide) (by decide) (by decide) (by decide)
  refine ⟨h.1, h.2.1.mpr ?_⟩
  refine ⟨("user_id", ⟨"number", false⟩), by decide, by decide, by decide⟩

/-- C5: a non-empty dataset whose first item has depth exactly 3, no nested
arrays, and consistent sampled items falls through every earlier rule and
routes to the document store with the complex-structure justification. -/
theorem c5_depth_three_fallback_document (data first : JSON) (rest : List JSON)
    (hobj : isObjLike data = true)
    (hitems : normItems data = first :: rest)
    (hsafe : analysisSafe data = true)
    (hdepth : calculateDepth first 1 = 3)
    (harr : hasNestedArrays first = false)
    (hcons : checkSchemaConsistency (first :: rest) = true) :
    (analyzeJSONSchema data).useSQL = false ∧
    (analyzeJSONSchema data).reason =
      "Complex structure - MongoDB provides better flexibility" := by
  have hd3 : ¬ calculateDepth first 1 > 3 := by omega
  have hd2 : ¬ calculateDepth first 1 ≤ 2 := by omega
  simp [analyzeJSONSchema, hobj, hitems, hd3, harr, hcons, hd2]

/-- C5 witness: the singleton dataset holding a depth-3, array-free object
routes to the document store with the complex-structure justification. -/
theorem c5_depth_three_fallback_document_witness :
    (analyzeJSONSchema (JSON.arr [JSON.obj [("a", JSON.obj [("b",
        JSON.obj [("c", JSON.num 1)])])]])).useSQL = false ∧
    (analyzeJSONSchema (JSON.arr [JSON.obj [("a", JSON.obj [("b",
        JSON.obj [("c", JSON.num 1)])])]])).reason =
      "Complex structure - MongoDB provides better flexibility" :=
  c5_depth_three_fallback_document
    (JSON.arr [JSON.obj [("a", JSON.obj [("b", JSON.obj [("c", JSON.num 1)])])]])
    (JSON.obj [("a", JSON.obj [("b", JSON.obj [("c", JSON.num 1)])])])
    [] rfl rfl (by decide) (by decide) (by decide) (by decide)

/-- Evaluating a predicate over a `take`-prefix is the same as evaluating it
at every index below `min n length`. -/
theorem all_take_iff_getD {α : Type} (p : α → Bool) (d : α) :
    ∀ (l : List α) (n : Nat),
      ((l.take n).all p = true) ↔ ∀ j, j < min n l.length → p (l.getD j d) = true := by
  intro l
  induction l with
  | nil => intro n; simp
  | cons x xs ih =>
      intro n
      cases n with
      | zero => simp
      | succ m =>
          simp only [List.take_succ_cons, List.all_cons, Bool.and_eq_true, ih m]
          constructor
          · rintro ⟨hx, hall⟩ j hj
            cases j with
            | zero => simpa using hx
            | succ i =>
                simp only [List.getD_cons_succ]
                exact hall i (by simp only [List.length_cons] at hj; omega)
          · intro h
            refine ⟨by simpa using h 0 (by simp only [List.length_cons]; omega), fun i hi => ?_⟩
            have hs := h (i + 1) (by simp only [List.length_cons]; omega)
            simpa using hs

/-- C8: a sequence of at most one item is always consistent; a longer one is
consistent exactly when each of items `1 .. min(length, 10) - 1` has the
same sorted key list as item 0 — so a key-set difference first appearing at
index 10 or beyond can never make the check fail. -/
theorem c8_consistency_sample (items : List JSON)
    (hnull : ((items.take 10).all fun v => !v.isNull) = true) :
    (items.length ≤ 1 → checkSchemaConsistency items = true) ∧
    (2 ≤ items.length →
      (checkSchemaConsistency items = true ↔
        ∀ i, 1 ≤ i → i < min items.length 10 →
          sortStrings (jsKeys (items.getD i JSON.null)) =
            sortStrings (jsKeys (items.getD 0 JSON.null)))) := by
  rcases items with _ | ⟨first, _ | ⟨second, rest⟩⟩
  · exact ⟨fun _ => rfl, fun h => by simp at h⟩
  · exact ⟨fun _ => rfl, fun h => by simp at h⟩
  · refine ⟨fun h => by simp at h, fun _ => ?_⟩
    have hc : checkSchemaConsistency (first :: second :: rest) =
        ((second :: rest).take 9).all fun item =>
          sortStrings (jsKeys item) == sortStrings (jsKeys first) := rfl
    rw [hc, all_take_iff_getD (fun item => sortStrings (jsKeys item) ==
      sortStrings (jsKeys first)) JSON.null (second :: rest) 9]
    constructor
    · intro h i h1 h2
      obtain ⟨j, rfl⟩ : ∃ j, i = j + 1 := ⟨i - 1, by omega⟩
      rw [List.getD_cons_succ, List.getD_cons_zero]
      refine beq_iff_eq.mp (h j ?_)
      simp only [List.length_cons] at h2 ⊢
      omega
    · intro h j hj
      have hs := h (j + 1) (by omega) (by simp only [List.length_cons] at hj ⊢; omega)
      rw [List.getD_cons_succ, List.getD_cons_zero] at hs
      exact beq_iff_eq.mpr hs

/-- C8 witness: the two-item dataset with identical key sets listed in
different orders has its sampled key lists sorted to the same list. -/
theorem c8_consistency_sample_witness :
    sortStrings (jsKeys ([JSON.obj [("b", JSON.num 1), ("a", JSON.num 2)],
        JSON.obj [("a", JSON.num 3), ("b", JSON.num 4)]].getD 1 JSON.null)) =
      sortStrings (jsKeys ([JSON.obj [("b", JSON.num 1), ("a", JSON.num 2)],
        JSON.obj [("a", JSON.num 3), ("b", JSON.num 4)]].getD 0 JSON.null)) := by
  have h := c8_consistency_sample
    [JSON.obj [("b", JSON.num 1), ("a", JSON.num 2)],
     JSON.obj [("a", JSON.num 3), ("b", JSON.num 4)]] (by decide)
  exact (h.2 (by decide)).mp (by decide) 1 (by decide) (by decide)

/-- When the storage call fails, the orchestrator's inner catch produces a
success record whose count is the raw payload's top-level length. -/
theorem storeError_outcome (env : PipelineEnv) (data : JSON) (filename msg : String)
    (h : chosenStore env data = Except.error msg) :
    (analyzeAndStoreJSON env data filename).success = true ∧
    (analyzeAndStoreJSON env data filename).status = "processed" ∧
    (analyzeAndStoreJSON env data filename).recordCount = jsTopLen data := by
  unfold analyzeAndStoreJSON
  simp [h]

/-- C1 counterexample: with no backend configured, the storage call for a
one-item array fails with `PostgreSQL not configured`, yet
`analyzeAndStoreJSON` reports success with status `processed` and a record
count of 1 — it does not report the failure, mark the outcome failed, or
report zero records. -/
theorem c1_swallowed_failure_counterexample :
    chosenStore envNoBackend (JSON.arr [JSON.obj [("a", JSON.num 1)]]) =
      Except.error "PostgreSQL not configured" ∧
    (analyzeAndStoreJSON envNoBackend (JSON.arr [JSON.obj [("a", JSON.num 1)]])
        "t.json").success = true ∧
    (analyzeAndStoreJSON envNoBackend (JSON.arr [JSON.obj [("a", JSON.num 1)]])
        "t.json").status = "processed" ∧
    (analyzeAndStoreJSON envNoBackend (JSON.arr [JSON.obj [("a", JSON.num 1)]])
        "t.json").recordCount = 1 :=
  ⟨rfl, rfl, rfl, rfl⟩

/-- C1 (amended): for every ingestion in which the storage write fails —
including when no backend connection is configured — the orchestrator
catches the error and still reports success to its caller: the result is
marked `processed`, not failed, and the record count is the raw payload's
top-level length rather than zero. -/
theorem c1_storage_failure_swallowed (env : PipelineEnv) (data : JSON)
    (filename msg : String)
    (hsafe : analysisSafe data = true)
    (h : chosenStore env data = Except.error msg) :
    (analyzeAndStoreJSON env data filename).success = true ∧
    (analyzeAndStoreJSON env data filename).status = "processed" ∧
    (analyzeAndStoreJSON env data filename).recordCount = jsTopLen data :=
  storeError_outcome env data filename msg h

/-- C1 witness: the amended statement evaluated on a one-item array with no
backend configured. -/
theorem c1_storage_failure_swallowed_witness :
    (analyzeAndStoreJSON envNoBackend (JSON.arr [JSON.obj [("b", JSON.num 2)]])
        "w.json").success = true ∧
    (analyzeAndStoreJSON envNoBackend (JSON.arr [JSON.obj [("b", JSON.num 2)]])
        "w.json").status = "processed" ∧
    (analyzeAndStoreJSON envNoBackend (JSON.arr [JSON.obj [("b", JSON.num 2)]])
        "w.json").recordCount = jsTopLen (JSON.arr [JSON.obj [("b", JSON.num 2)]]) :=
  c1_storage_failure_swallowed envNoBackend (JSON.arr [JSON.obj [("b", JSON.num 2)]])
    "w.json" "PostgreSQL not configured" (by decide) rfl

/-- C10 counterexample: for the empty raw array with no backend configured
the storage call does throw, and the reported record count is 0 — the
claim's "never 0" fails. -/
theorem c10_zero_count_counterexample :
    chosenStore envNoBackend (JSON.arr []) = Except.error "PostgreSQL not configured" ∧
    (analyzeAndStoreJSON envNoBackend (JSON.arr []) "e.json").recordCount = 0 :=
  ⟨rfl, rfl⟩

/-- C10 (amended): when the storage call throws, the reported record count
equals the top-level length of the raw payload (array length, else 1) — 0
exactly for an empty raw array — and for a single-key wrapped payload it is
1 regardless of how many items the inner array holds. -/
theorem c10_fallback_count_is_top_level_length (env : PipelineEnv) (data : JSON)
    (filename msg : String)
    (hsafe : analysisSafe data = true)
    (h : chosenStore env data = Except.error msg) :
    (analyzeAndStoreJSON env data filename).recordCount = jsTopLen data ∧
    (∀ k xs, data = JSON.obj [(k, JSON.arr xs)] →
      (analyzeAndStoreJSON env data filename).recordCount = 1) := by
  have hmain := storeError_outcome env data filename msg h
  refine ⟨hmain.2.2, fun k xs hdata => ?_⟩
  rw [hmain.2.2, hdata]
  rfl

/-- C10 witness: a wrapped payload holding three inner items reports a
record count of 1 when the storage call fails. -/
theorem c10_fallback_count_is_top_level_length_witness :
    (analyzeAndStoreJSON envNoBackend
        (JSON.obj [("k", JSON.arr [JSON.num 1, JSON.num 2, JSON.num 3])])
        "w2.json").recordCount = 1 := by
  have h := c10_fallback_count_is_top_level_length envNoBackend
    (JSON.obj [("k", JSON.arr [JSON.num 1, JSON.num 2, JSON.num 3])]) "w2.json"
    "PostgreSQL not configured" (by decide) rfl
  exact h.2 "k" [JSON.num 1, JSON.num 2, JSON.num 3] rfl

end DeployTest
